import Mathlib

/-!
Verification development for the MicroTaskBounty core contracts.

The definitions below are a shallow embedding of the Solidity sources:
* `ReputationContract` (worker/verifier reputation scores),
* `TaskManager` (task lifecycle: creation, claiming, submission, expiry),
* `BountyPool` (escrow: deposits, fee-adjusted reward distribution and refunds),
* `AntiFraud` (rate limiting, duplicate content-hash detection, blacklist),
* `VerificationContract` (staking, voting, consensus, reward settlement).

Addresses are modelled as `Nat` (with `0` playing the role of `address(0)`),
`uint256` values as `Nat` (the quantities involved stay far below `2^256`, so
no wrap-around is modelled), `int256` values as `Int`, and content hashes as
`String`.  Solidity mappings are modelled as total functions with the zero
value as default, updated pointwise.  A reverting call is an `Except.error`;
by the EVM's transaction semantics a revert leaves the caller's state
untouched, which the embedding mirrors by returning no state on `error`.
-/

namespace MicroTask

/-- Pointwise update of a mapping, mirroring a Solidity storage write. -/
def updMap {α β : Type} [DecidableEq α] (m : α → β) (k : α) (v : β) : α → β :=
  fun x => if x = k then v else m x

theorem updMap_self {α β : Type} [DecidableEq α] (m : α → β) (k : α) (v : β) :
    updMap m k v k = v := by simp [updMap]

theorem updMap_other {α β : Type} [DecidableEq α] (m : α → β) (k x : α) (v : β)
    (h : x ≠ k) : updMap m k v x = m x := by simp [updMap, h]

/-! ## ReputationContract (src/unnamed/part_007, lines 10–397) -/

inductive TaskCategory
  | photoVerification
  | locationCheck
  | survey
  | priceMonitoring
  | businessHours
deriving DecidableEq

structure CategoryStats where
  successCount : Nat
  totalCount : Nat
  hasBadge : Bool
deriving DecidableEq

def zeroCategoryStats : CategoryStats := ⟨0, 0, false⟩

structure ReputationData where
  score : Nat
  tasksCompleted : Nat
  tasksRejected : Nat
  verificationsPerformed : Nat
  accurateVerifications : Nat
  categoryStats : TaskCategory → CategoryStats

def zeroReputationData : ReputationData :=
  ⟨0, 0, 0, 0, 0, fun _ => zeroCategoryStats⟩

def INITIAL_REPUTATION : Nat := 50
def REPUTATION_INCREASE : Nat := 5
def REPUTATION_DECREASE : Nat := 5
def BADGE_TASK_THRESHOLD : Nat := 10
def BADGE_SUCCESS_RATE_THRESHOLD : Nat := 90
def MAX_REPUTATION : Nat := 100
def MIN_REPUTATION : Nat := 0

/-- `ReputationContract.updateWorkerReputation` (part_007 lines 135–165),
acting on the single `ReputationData` record of the worker. -/
def updateWorkerReputation (successful : Bool) (rep0 : ReputationData) :
    ReputationData :=
  -- Initialize if first time (check if never had any tasks)
  let rep :=
    if rep0.score = 0 ∧ rep0.tasksCompleted = 0 ∧ rep0.tasksRejected = 0 then
      { rep0 with score := INITIAL_REPUTATION }
    else rep0
  if successful then
    let s :=
      if rep.score + REPUTATION_INCREASE ≤ MAX_REPUTATION then
        rep.score + REPUTATION_INCREASE
      else MAX_REPUTATION
    { rep with score := s, tasksCompleted := rep.tasksCompleted + 1 }
  else
    let s :=
      if REPUTATION_DECREASE ≤ rep.score then rep.score - REPUTATION_DECREASE
      else MIN_REPUTATION
    { rep with score := s, tasksRejected := rep.tasksRejected + 1 }

/-- `ReputationContract._shouldAwardBadge` (part_007 lines 261–268). -/
def shouldAwardBadge (stats : CategoryStats) : Bool :=
  if stats.totalCount < BADGE_TASK_THRESHOLD then false
  else decide (BADGE_SUCCESS_RATE_THRESHOLD ≤ stats.successCount * 100 / stats.totalCount)

/-- `ReputationContract.updateWorkerReputationWithCategory`
(part_007 lines 173–216). -/
def updateWorkerReputationWithCategory (category : TaskCategory)
    (successful : Bool) (rep0 : ReputationData) : ReputationData :=
  let rep :=
    if rep0.score = 0 ∧ rep0.tasksCompleted = 0 ∧ rep0.tasksRejected = 0 then
      { rep0 with score := INITIAL_REPUTATION }
    else rep0
  let rep1 :=
    if successful then
      let s :=
        if rep.score + REPUTATION_INCREASE ≤ MAX_REPUTATION then
          rep.score + REPUTATION_INCREASE
        else MAX_REPUTATION
      { rep with score := s, tasksCompleted := rep.tasksCompleted + 1 }
    else
      let s :=
        if REPUTATION_DECREASE ≤ rep.score then rep.score - REPUTATION_DECREASE
        else MIN_REPUTATION
      { rep with score := s, tasksRejected := rep.tasksRejected + 1 }
  let cat0 := rep1.categoryStats category
  let newSuccess := if successful then cat0.successCount + 1 else cat0.successCount
  let cat1 := { cat0 with totalCount := cat0.totalCount + 1, successCount := newSuccess }
  let cat2 :=
    if cat1.hasBadge = false ∧ shouldAwardBadge cat1 = true then
      { cat1 with hasBadge := true }
    else cat1
  { rep1 with categoryStats := updMap rep1.categoryStats category cat2 }

/-- `ReputationContract.updateVerifierReputation` (part_007 lines 223–254). -/
def updateVerifierReputation (accurateVote : Bool) (rep0 : ReputationData) :
    ReputationData :=
  -- Initialize if first time (check if never performed verifications)
  let rep :=
    if rep0.score = 0 ∧ rep0.verificationsPerformed = 0 then
      { rep0 with score := INITIAL_REPUTATION }
    else rep0
  let rep1 := { rep with verificationsPerformed := rep.verificationsPerformed + 1 }
  if accurateVote then
    let s :=
      if rep1.score + REPUTATION_INCREASE ≤ MAX_REPUTATION then
        rep1.score + REPUTATION_INCREASE
      else MAX_REPUTATION
    { rep1 with score := s, accurateVerifications := rep1.accurateVerifications + 1 }
  else
    let s :=
      if REPUTATION_DECREASE ≤ rep1.score then rep1.score - REPUTATION_DECREASE
      else MIN_REPUTATION
    { rep1 with score := s }

/-- `ReputationContract.getReputationScore` (part_007 lines 275–283). -/
def getReputationScore (rep : ReputationData) : Nat :=
  if rep.score = 0 ∧ rep.tasksCompleted = 0 ∧ rep.tasksRejected = 0 ∧
      rep.verificationsPerformed = 0 then
    INITIAL_REPUTATION
  else rep.score

/-- The `score` return value of `ReputationContract.getReputationData`
(part_007 lines 294–307): `score = rep.score == 0 ? INITIAL_REPUTATION : rep.score`. -/
def getReputationDataScore (rep : ReputationData) : Nat :=
  if rep.score = 0 then INITIAL_REPUTATION else rep.score

/-- One state-changing reputation operation, as callable on the contract. -/
inductive RepOp
  | worker (successful : Bool)
  | workerCat (category : TaskCategory) (successful : Bool)
  | verifier (accurateVote : Bool)

def applyRepOp (rep : ReputationData) : RepOp → ReputationData
  | .worker successful => updateWorkerReputation successful rep
  | .workerCat c successful => updateWorkerReputationWithCategory c successful rep
  | .verifier accurate => updateVerifierReputation accurate rep

def applyRepOps (ops : List RepOp) (rep : ReputationData) : ReputationData :=
  ops.foldl applyRepOp rep

/-! ## BountyPool (src/unnamed/part_008)

The pool's ether transfers are modelled by an `accountBalance` ledger
recording the cumulative amounts the pool has paid out to each address;
recipients are plain accounts, so the low-level `call` transfer succeeds. -/

def PLATFORM_FEE_PERCENTAGE : Nat := 250
def EXPIRED_TASK_FEE_PERCENTAGE : Nat := 500
def BASIS_POINTS : Nat := 10000

structure PoolState where
  taskBounties : Nat → Nat
  accumulatedFees : Nat
  accountBalance : Nat → Nat

inductive PoolError
  | insufficientBounty (taskId required available : Nat)
  | noFeesToWithdraw
deriving DecidableEq

/-- `BountyPool.depositBounty` (part_008 lines 83–86); the attached
`msg.value` is added to the task's escrow balance. Callable only by the
TaskManager contract, which the repository's `createTask` never does. -/
def depositBounty (taskId msgValue : Nat) (p : PoolState) : PoolState :=
  { p with taskBounties := updMap p.taskBounties taskId (p.taskBounties taskId + msgValue) }

/-- `BountyPool.distributeReward` (part_008 lines 94–120). -/
def distributeReward (taskId worker amount : Nat) (p : PoolState) :
    Except PoolError PoolState :=
  if p.taskBounties taskId < amount then
    .error (.insufficientBounty taskId amount (p.taskBounties taskId))
  else
    let platformFee := amount * PLATFORM_FEE_PERCENTAGE / BASIS_POINTS
    let workerReward := amount - platformFee
    .ok { p with
      taskBounties := updMap p.taskBounties taskId (p.taskBounties taskId - amount),
      accumulatedFees := p.accumulatedFees + platformFee,
      accountBalance := updMap p.accountBalance worker (p.accountBalance worker + workerReward) }

/-- `BountyPool.refundBounty` (part_008 lines 128–154). -/
def refundBounty (taskId creator amount : Nat) (p : PoolState) :
    Except PoolError PoolState :=
  if p.taskBounties taskId < amount then
    .error (.insufficientBounty taskId amount (p.taskBounties taskId))
  else
    let platformFee := amount * EXPIRED_TASK_FEE_PERCENTAGE / BASIS_POINTS
    let refundAmount := amount - platformFee
    .ok { p with
      taskBounties := updMap p.taskBounties taskId (p.taskBounties taskId - amount),
      accumulatedFees := p.accumulatedFees + platformFee,
      accountBalance := updMap p.accountBalance creator (p.accountBalance creator + refundAmount) }

/-! ## AntiFraud (src/contracts/VerificationContract.sol, lines 504–884) -/

structure SubmissionRecord where
  timestamp : Nat
  imageHash : String
  metadataHash : Nat
deriving DecidableEq

structure DailySubmissionCount where
  date : Nat
  count : Nat
deriving DecidableEq

structure AFState where
  workerDailySubmissions : Nat → DailySubmissionCount
  workerSubmissions : Nat → List SubmissionRecord
  usedImageHashes : String → Bool
  imageHashToWorker : String → Nat
  workerStakes : Nat → Nat
  blacklistedWorkers : Nat → Bool

def MAX_SUBMISSIONS_PER_DAY : Nat := 20
def ONE_DAY : Nat := 86400

inductive AFError
  | workerBlacklisted (worker : Nat)
  | rateLimitExceeded (worker currentCount : Nat)
  | duplicateImageDetected (imageHash : String) (originalWorker : Nat)
  | invalidMetadata (reason : String)
  | noStakeToForfeit (worker : Nat)
deriving DecidableEq

/-- `AntiFraud._getCurrentDay`. -/
def getCurrentDay (now : Nat) : Nat := now / ONE_DAY * ONE_DAY

/-- `AntiFraud.checkAndRecordSubmission` together with its private helpers
`_checkRateLimit`, `_checkDuplicateImage`, `_validateMetadata` and
`_recordSubmission` (VerificationContract.sol lines 638–735).  The checks are
performed in source order; any failing check reverts the entire call, which
the embedding mirrors by returning `error` (so no partial recording). -/
def checkAndRecordSubmission (worker taskId : Nat) (imageHash : String)
    (metadataHash now : Nat) (s : AFState) : Except AFError AFState :=
  if s.blacklistedWorkers worker then .error (.workerBlacklisted worker)
  else
    -- _checkRateLimit: reset the bucket on day rollover, then check and bump
    let today := getCurrentDay now
    let dc0 := s.workerDailySubmissions worker
    let dc1 := if dc0.date ≠ today then (⟨today, 0⟩ : DailySubmissionCount) else dc0
    if MAX_SUBMISSIONS_PER_DAY ≤ dc1.count then
      .error (.rateLimitExceeded worker dc1.count)
    else
      let daily1 := updMap s.workerDailySubmissions worker ⟨dc1.date, dc1.count + 1⟩
      let s1 := { s with workerDailySubmissions := daily1 }
      -- _checkDuplicateImage
      if s1.usedImageHashes imageHash then
        .error (.duplicateImageDetected imageHash (s1.imageHashToWorker imageHash))
      -- _validateMetadata
      else if metadataHash = 0 then
        .error (.invalidMetadata "Metadata hash cannot be empty")
      else
        -- _recordSubmission
        .ok { s1 with
          workerSubmissions := updMap s1.workerSubmissions worker
            (s1.workerSubmissions worker ++ [⟨now, imageHash, metadataHash⟩]),
          usedImageHashes := updMap s1.usedImageHashes imageHash true,
          imageHashToWorker := updMap s1.imageHashToWorker imageHash worker }

/-- `AntiFraud.forfeitStake` (VerificationContract.sol lines 742–759). -/
def forfeitStake (worker : Nat) (s : AFState) : Except AFError AFState :=
  if s.workerStakes worker = 0 then .error (.noStakeToForfeit worker)
  else .ok { s with workerStakes := updMap s.workerStakes worker 0 }

/-! ## TaskManager (src/unnamed/part_007, lines 417–825) -/

inductive TaskStatus
  | active
  | inProgress
  | completed
  | expired
  | cancelled
deriving DecidableEq

structure Location where
  latitude : Int
  longitude : Int
  radius : Nat
deriving DecidableEq

def zeroLocation : Location := ⟨0, 0, 0⟩

structure TaskRequirements where
  photoCount : Nat
  requiresLocation : Bool
  minReputation : Nat
  requiredBadge : TaskCategory
deriving DecidableEq

def zeroRequirements : TaskRequirements := ⟨0, false, 0, .photoVerification⟩

structure Task where
  id : Nat
  creator : Nat
  description : String
  category : TaskCategory
  bountyAmount : Nat
  maxWorkers : Nat
  location : Location
  deadline : Nat
  status : TaskStatus
  requirements : TaskRequirements
  submissionCount : Nat
  verifiedCount : Nat
  createdAt : Nat
deriving DecidableEq

/-- The zero value of a `Task` mapping slot (status `ACTIVE` is the first
enum member, hence the Solidity zero value). -/
def zeroTask : Task :=
  ⟨0, 0, "", .photoVerification, 0, 0, zeroLocation, 0, .active, zeroRequirements, 0, 0, 0⟩

structure TaskClaim where
  worker : Nat
  claimedAt : Nat
  completed : Bool
deriving DecidableEq

def zeroClaim : TaskClaim := ⟨0, 0, false⟩

def MINIMUM_BOUNTY : Nat := 500000000000000000
def MAX_ACTIVE_TASKS_PER_WORKER : Nat := 3
def TASK_COMPLETION_TIMEOUT : Nat := 86400

structure TMState where
  taskIdCounter : Nat
  tasks : Nat → Task
  workerActiveTasks : Nat → List Nat
  taskClaims : Nat → Nat → TaskClaim
  taskWorkers : Nat → List Nat
  antiFraudSet : Bool

inductive TMError
  | insufficientBounty (provided required : Nat)
  | taskNotActive (taskId : Nat)
  | workerAlreadyClaimed (worker taskId : Nat)
  | maxActiveTasksReached (worker : Nat)
  | outsideLocationRadius (requiredLat requiredLon providedLat providedLon : Int)
  | deadlineExpired (taskId deadline : Nat)
  | invalidTaskId (taskId : Nat)
  | taskNotClaimed (worker taskId : Nat)
  | afError (e : AFError)
deriving DecidableEq

/-- `TaskManager._isWithinRadius` (part_007 lines 753–771): a planar
squared-difference check on the 1e6-scaled coordinates against
`radius² · 1e12 / 111000²`, not a haversine computation (the source comment
reads "Simple distance calculation (Haversine would be more accurate but
more expensive)").  `latDiff·latDiff + lonDiff·lonDiff` is non-negative, so
its `uint256` cast is `Int.toNat`. -/
def isWithinRadius (required provided : Location) : Bool :=
  let latDiff := required.latitude - provided.latitude
  let lonDiff := required.longitude - provided.longitude
  let distanceSquared := (latDiff * latDiff + lonDiff * lonDiff).toNat
  let radiusSquared := required.radius * required.radius
  let scaleFactor := 1000000000000
  decide (distanceSquared ≤ radiusSquared * scaleFactor / (111000 * 111000))

/-- `TaskManager._removeActiveTask` (part_007 lines 778–787): swap the first
occurrence with the last element, then pop; no change when absent. -/
def removeActiveTask (activeTasks : List Nat) (taskId : Nat) : List Nat :=
  match activeTasks.indexOf? taskId with
  | none => activeTasks
  | some i => (activeTasks.set i ((activeTasks.getLast?).getD 0)).dropLast

/-- The whole core system: the four ledger contracts.  `rep` maps each
address to its `ReputationData` record.  TaskManager's `createTask`,
`submitTaskCompletion` and `expireTask` touch only the components the
Solidity source touches. -/
structure SysState where
  tm : TMState
  pool : PoolState
  rep : Nat → ReputationData
  af : AFState

/-- `TaskManager.createTask` (part_007 lines 545–583).  The function is
`payable`; `msgValue` is the attached `msg.value`, which the source never
reads and never forwards anywhere (in particular not to the BountyPool). -/
def createTask (sender msgValue : Nat) (description : String)
    (category : TaskCategory) (bountyAmount maxWorkers : Nat)
    (location : Location) (deadline : Nat) (requirements : TaskRequirements)
    (now : Nat) (s : TMState) : Except TMError (TMState × Nat) :=
  if bountyAmount < MINIMUM_BOUNTY then
    .error (.insufficientBounty bountyAmount MINIMUM_BOUNTY)
  else if deadline ≤ now then
    .error (.deadlineExpired 0 deadline)
  else
    let taskId := s.taskIdCounter
    let t : Task := ⟨taskId, sender, description, category, bountyAmount,
      maxWorkers, location, deadline, .active, requirements, 0, 0, now⟩
    .ok ({ s with taskIdCounter := taskId + 1, tasks := updMap s.tasks taskId t }, taskId)

/-- `createTask` lifted to the whole system: the source's `createTask` body
contains no call into BountyPool, ReputationContract or AntiFraud, so the
other components are untouched. -/
def sysCreateTask (sender msgValue : Nat) (description : String)
    (category : TaskCategory) (bountyAmount maxWorkers : Nat)
    (location : Location) (deadline : Nat) (requirements : TaskRequirements)
    (now : Nat) (s : SysState) : Except TMError (SysState × Nat) :=
  match createTask sender msgValue description category bountyAmount maxWorkers
      location deadline requirements now s.tm with
  | .error e => .error e
  | .ok (tm', taskId) => .ok ({ s with tm := tm' }, taskId)

/-- `TaskManager.expireTask` (part_007 lines 725–745).  Note the source body
contains no BountyPool call: no refund is issued. -/
def expireTask (taskId now : Nat) (s : TMState) : Except TMError (TMState × Bool) :=
  let task := s.tasks taskId
  if task.id ≠ taskId then .error (.invalidTaskId taskId)
  else if now ≤ task.deadline then .error (.deadlineExpired taskId task.deadline)
  else if task.status = .expired ∨ task.status = .completed then .ok (s, false)
  else
    .ok ({ s with tasks := updMap s.tasks taskId { task with status := .expired } }, true)

/-- `expireTask` lifted to the whole system (the source touches only the
TaskManager's own storage). -/
def sysExpireTask (taskId now : Nat) (s : SysState) : Except TMError (SysState × Bool) :=
  match expireTask taskId now s.tm with
  | .error e => .error e
  | .ok (tm', b) => .ok ({ s with tm := tm' }, b)

/-- Abstraction of the `keccak256(abi.encodePacked(...))` metadata hash
computed inside `submitTaskCompletion` (part_007 lines 687–694).  Only its
non-zeroness is ever inspected (by `AntiFraud._validateMetadata`), and a
keccak-256 output is never the zero word on these inputs, so the model
returns a fixed non-zero value. -/
def metadataHashModel (taskId sender : Nat) (ipfsHash : String) (now : Nat)
    (lat lon : Int) : Nat := 1

/-- `TaskManager.submitTaskCompletion` (part_007 lines 648–718), lifted to
the system so the synchronous `AntiFraud.checkAndRecordSubmission` call is
included (performed when `antiFraudSet`, mirroring
`antiFraudAddress != address(0)`).  Any AntiFraud revert aborts the whole
operation. -/
def submitTaskCompletion (sender taskId : Nat) (ipfsHash : String)
    (submissionLocation : Location) (now : Nat) (s : SysState) :
    Except TMError (SysState × Nat) :=
  let task := s.tm.tasks taskId
  if task.id ≠ taskId then .error (.invalidTaskId taskId)
  else if (s.tm.taskClaims taskId sender).worker = 0 then
    .error (.taskNotClaimed sender taskId)
  else if task.deadline < now then .error (.deadlineExpired taskId task.deadline)
  else
    -- Check if claim has expired (24 hours)
    let claim := s.tm.taskClaims taskId sender
    if claim.claimedAt + TASK_COMPLETION_TIMEOUT < now then
      .error (.deadlineExpired taskId (claim.claimedAt + TASK_COMPLETION_TIMEOUT))
    else if task.requirements.requiresLocation = true ∧
        isWithinRadius task.location submissionLocation = false then
      .error (.outsideLocationRadius task.location.latitude task.location.longitude
        submissionLocation.latitude submissionLocation.longitude)
    else
      let afResult :=
        if s.tm.antiFraudSet then
          checkAndRecordSubmission sender taskId ipfsHash
            (metadataHashModel taskId sender ipfsHash now
              submissionLocation.latitude submissionLocation.longitude) now s.af
        else .ok s.af
      match afResult with
      | .error e => .error (.afError e)
      | .ok af' =>
        let claim' := { claim with completed := true }
        let active' := removeActiveTask (s.tm.workerActiveTasks sender) taskId
        let task' := { task with submissionCount := task.submissionCount + 1 }
        let tm' := { s.tm with
          taskClaims := updMap s.tm.taskClaims taskId
            (updMap (s.tm.taskClaims taskId) sender claim'),
          workerActiveTasks := updMap s.tm.workerActiveTasks sender active',
          tasks := updMap s.tm.tasks taskId task' }
        .ok ({ s with tm := tm', af := af' }, task.submissionCount + 1)

/-! ## VerificationContract (src/contracts/VerificationContract.sol, lines 24–494)

The per-submission state (`submissions[id]`, `verificationVotes[id]`,
`submissionVerifiers[id]`, `consensusReachedAt[id]`) of distinct submission
ids never interacts, so the model fixes one submission and carries its
state together with the wired BountyPool and ReputationContract.  This is
the deployment configuration in which `reputationContractAddress` and
`bountyPoolAddress` are set and `antiFraudAddress` is left at `address(0)`
(the constructor default), so the `if (antiFraudAddress != address(0))`
guarded `forfeitStake` call in `_checkConsensus` is skipped.  `vcPaid`
records the cumulative ether the VerificationContract transferred to each
verifier (stake returns plus bonus); verifiers are plain accounts, so the
transfers succeed. -/

inductive VerificationStatus
  | pending
  | verified
  | rejected
  | disputed
deriving DecidableEq

structure VSubmission where
  id : Nat
  taskId : Nat
  worker : Nat
  ipfsHash : String
  timestamp : Nat
  location : Location
  status : VerificationStatus
  approvalCount : Nat
  rejectionCount : Nat
  totalVotes : Nat
  bountyAmount : Nat
  rewardDistributed : Bool
deriving DecidableEq

structure VVote where
  hasVoted : Bool
  approved : Bool
  timestamp : Nat
  stake : Nat
deriving DecidableEq

def zeroVVote : VVote := ⟨false, false, 0, 0⟩

def VERIFICATION_STAKE : Nat := 100000000000000000
def CONSENSUS_THRESHOLD : Nat := 3
def MAX_VERIFIERS : Nat := 7
def VERIFICATION_REWARD_PERCENTAGE : Nat := 1000
def REWARD_DISTRIBUTION_DELAY : Nat := 300

/-- Read of the `verificationVotes[submissionId]` mapping (zero value for
addresses that never staked). -/
def getVote (votes : List (Nat × VVote)) (a : Nat) : VVote :=
  match votes.find? (fun kv => kv.1 = a) with
  | some kv => kv.2
  | none => zeroVVote

/-- Write to the `verificationVotes[submissionId]` mapping. -/
def setVote (votes : List (Nat × VVote)) (a : Nat) (v : VVote) : List (Nat × VVote) :=
  match votes with
  | [] => [(a, v)]
  | kv :: rest => if kv.1 = a then (a, v) :: rest else kv :: setVote rest a v

structure VSys where
  sub : VSubmission
  votes : List (Nat × VVote)
  verifiers : List Nat
  consensusReachedAt : Nat
  rep : Nat → ReputationData
  pool : PoolState
  vcPaid : Nat → Nat

inductive VCError
  | insufficientStake (provided required : Nat)
  | alreadyVoted (verifier : Nat)
  | submissionNotFound
  | alreadyVerified
  | consensusNotReached
  | maxVerifiersReached
  | rewardAlreadyDistributed
  | rewardDistributionTooEarly (timeRemaining : Nat)
  | workerCannotVerifyOwnSubmission (worker : Nat)
  | poolError (e : PoolError)
deriving DecidableEq

/-- `VerificationContract.createSubmission` (lines 200–227) opening a fresh
`PENDING` submission, paired with the wired pool and reputation state. -/
def initVSys (taskId worker : Nat) (ipfsHash : String) (location : Location)
    (bountyAmount now : Nat) (pool : PoolState) (rep : Nat → ReputationData) : VSys :=
  { sub := ⟨0, taskId, worker, ipfsHash, now, location, .pending, 0, 0, 0,
      bountyAmount, false⟩,
    votes := [], verifiers := [], consensusReachedAt := 0,
    rep := rep, pool := pool, vcPaid := fun _ => 0 }

/-- `VerificationContract.stakeForVerification` (lines 233–265). -/
def stakeForVerification (sender msgValue now : Nat) (s : VSys) :
    Except VCError VSys :=
  if ¬(s.sub.status = .pending ∨ s.sub.status = .disputed) then
    .error .alreadyVerified
  else if (getVote s.votes sender).hasVoted then .error (.alreadyVoted sender)
  else if MAX_VERIFIERS ≤ s.verifiers.length then .error .maxVerifiersReached
  else if sender = s.sub.worker then .error (.workerCannotVerifyOwnSubmission sender)
  else if msgValue < VERIFICATION_STAKE then
    .error (.insufficientStake msgValue VERIFICATION_STAKE)
  else
    let v := getVote s.votes sender
    .ok { s with votes := setVote s.votes sender { v with stake := msgValue },
                 verifiers := s.verifiers ++ [sender] }

/-- `VerificationContract._checkConsensus` (lines 316–357); the
ReputationContract is wired, the AntiFraud contract is not (see the section
comment), so the rejection branch performs the reputation update but no
stake forfeiture. -/
def checkConsensus (now : Nat) (s : VSys) : VSys :=
  if CONSENSUS_THRESHOLD ≤ s.sub.approvalCount then
    { s with sub := { s.sub with status := .verified },
             consensusReachedAt := now,
             rep := updMap s.rep s.sub.worker
               (updateWorkerReputation true (s.rep s.sub.worker)) }
  else if CONSENSUS_THRESHOLD ≤ s.sub.rejectionCount then
    { s with sub := { s.sub with status := .rejected },
             consensusReachedAt := now,
             rep := updMap s.rep s.sub.worker
               (updateWorkerReputation false (s.rep s.sub.worker)) }
  else if MAX_VERIFIERS ≤ s.sub.totalVotes then
    { s with sub := { s.sub with status := .disputed } }
  else s

/-- The state mutation performed by a successful `submitVerification`
call: record the vote, bump the counters, then run `_checkConsensus`. -/
def recordVote (sender : Nat) (approved : Bool) (now : Nat) (s : VSys) : VSys :=
  let v := getVote s.votes sender
  let v' := { v with hasVoted := true, approved := approved, timestamp := now }
  let newApproval := if approved then s.sub.approvalCount + 1 else s.sub.approvalCount
  let newRejection := if approved then s.sub.rejectionCount else s.sub.rejectionCount + 1
  let sub' := { s.sub with totalVotes := s.sub.totalVotes + 1, approvalCount := newApproval, rejectionCount := newRejection }
  checkConsensus now { s with sub := sub', votes := setVote s.votes sender v' }

/-- `VerificationContract.submitVerification` (lines 273–310).  Note the
source checks only that the sender staked and has not voted — there is no
guard on the submission's status. -/
def submitVerification (sender : Nat) (approved : Bool) (now : Nat) (s : VSys) :
    Except VCError VSys :=
  let v := getVote s.votes sender
  if v.stake = 0 then .error (.insufficientStake 0 VERIFICATION_STAKE)
  else if v.hasVoted then .error (.alreadyVoted sender)
  else .ok (recordVote sender approved now s)

/-- One iteration of `_distributeVerifierRewards`'s loop over the
verifiers array (lines 410–446). -/
def settleVerifier (consensusApproved : Bool) (st : VSys) (verifier : Nat) : VSys :=
  let vote := getVote st.votes verifier
  if vote.hasVoted = false then st
  else if vote.approved = consensusApproved then
    let reward := vote.stake + vote.stake * VERIFICATION_REWARD_PERCENTAGE / BASIS_POINTS
    let paid' := updMap st.vcPaid verifier (st.vcPaid verifier + reward)
    let rep' := updMap st.rep verifier (updateVerifierReputation true (st.rep verifier))
    { st with vcPaid := paid', rep := rep' }
  else
    let rep' := updMap st.rep verifier (updateVerifierReputation false (st.rep verifier))
    { st with rep := rep' }

/-- `VerificationContract._distributeVerifierRewards` (lines 403–449). -/
def distributeVerifierRewards (s : VSys) : VSys :=
  s.verifiers.foldl (settleVerifier (decide (s.sub.status = .verified))) s

/-- `VerificationContract.distributeVerificationRewards` (lines 363–397). -/
def distributeVerificationRewards (now : Nat) (s : VSys) : Except VCError VSys :=
  if ¬(s.sub.status = .verified ∨ s.sub.status = .rejected) then
    .error .consensusNotReached
  else if s.sub.rewardDistributed then .error .rewardAlreadyDistributed
  else if now - s.consensusReachedAt < REWARD_DISTRIBUTION_DELAY then
    .error (.rewardDistributionTooEarly
      (REWARD_DISTRIBUTION_DELAY - (now - s.consensusReachedAt)))
  else
    let s1 := { s with sub := { s.sub with rewardDistributed := true } }
    let poolResult :=
      if s1.sub.status = .verified then
        distributeReward s1.sub.taskId s1.sub.worker s1.sub.bountyAmount s1.pool
      else .ok s1.pool
    match poolResult with
    | .error e => .error (.poolError e)
    | .ok pool' => .ok (distributeVerifierRewards { s1 with pool := pool' })

/-- A state-changing call on the verification subsystem. -/
inductive VOp
  | stake (sender msgValue now : Nat)
  | vote (sender : Nat) (approved : Bool) (now : Nat)
  | distribute (now : Nat)

def execVOp (s : VSys) : VOp → Except VCError VSys
  | .stake sender msgValue now => stakeForVerification sender msgValue now s
  | .vote sender approved now => submitVerification sender approved now s
  | .distribute now => distributeVerificationRewards now s

/-- Transaction semantics: a reverted call leaves the state unchanged. -/
def applyVOp (s : VSys) (op : VOp) : VSys :=
  match execVOp s op with
  | .ok s' => s'
  | .error _ => s

def runVOps (s : VSys) (ops : List VOp) : VSys :=
  ops.foldl applyVOp s

/-- The verification states reachable from a freshly created submission by
an arbitrary sequence of staking/voting/distribution calls. -/
def submissionRun (taskId worker : Nat) (ipfsHash : String) (location : Location)
    (bountyAmount now0 : Nat) (pool : PoolState) (rep : Nat → ReputationData)
    (ops : List VOp) : VSys :=
  runVOps (initVSys taskId worker ipfsHash location bountyAmount now0 pool rep) ops

/-- The inductive invariant of the per-submission voting state: the vote
counters agree with the recorded votes, at most `MAX_VERIFIERS` reviewers
ever join, and the status tracks the counters once a consensus threshold
is crossed. -/
def VInv (s : VSys) : Prop :=
  s.sub.approvalCount + s.sub.rejectionCount = s.sub.totalVotes ∧
  s.sub.totalVotes = s.votes.countP (fun kv => kv.2.hasVoted) ∧
  s.votes.length ≤ s.verifiers.length ∧
  s.verifiers.length ≤ MAX_VERIFIERS ∧
  (CONSENSUS_THRESHOLD ≤ s.sub.approvalCount → s.sub.status = .verified) ∧
  (CONSENSUS_THRESHOLD ≤ s.sub.rejectionCount →
    s.sub.approvalCount < CONSENSUS_THRESHOLD → s.sub.status = .rejected)

/-! ## Spec-side geofence model (for the refinement comparison of the
location check)

The spec states the geofence distance is "computed via the haversine
great-circle formula against the configured radius — not a simplified
planar approximation".  The following definition follows the spec's words
(haversine on the 1e6-scaled degree coordinates, earth radius in metres),
to be compared against the source's `isWithinRadius`. -/

/-- Degrees represented by a 1e6-scaled integer coordinate. -/
noncomputable def degreesOfScaled (x : Int) : ℝ := (x : ℝ) / 1000000

/-- The haversine great-circle distance in metres between two points given
in degrees, with the conventional mean earth radius of 6371 km. -/
noncomputable def haversineDistanceMeters (lat1 lon1 lat2 lon2 : ℝ) : ℝ :=
  let phi1 := lat1 * Real.pi / 180
  let phi2 := lat2 * Real.pi / 180
  let dphi := (lat2 - lat1) * Real.pi / 180
  let dlam := (lon2 - lon1) * Real.pi / 180
  let h := Real.sin (dphi / 2) ^ 2 +
    Real.cos phi1 * Real.cos phi2 * Real.sin (dlam / 2) ^ 2
  2 * 6371000 * Real.arcsin (Real.sqrt h)

/-- The spec's geofence acceptance: haversine distance within the task
radius. -/
def isWithinRadiusHaversine (required provided : Location) : Prop :=
  haversineDistanceMeters (degreesOfScaled required.latitude)
      (degreesOfScaled required.longitude)
      (degreesOfScaled provided.latitude)
      (degreesOfScaled provided.longitude) ≤ (required.radius : ℝ)

/-! ## Transaction wrappers and concrete states used in the theorems -/

/-- The error of a TaskManager call, if it reverted. -/
def errOf {α : Type} (r : Except TMError α) : Option TMError :=
  match r with
  | .error e => some e
  | .ok _ => none

/-- Transaction semantics of `submitTaskCompletion`: a revert leaves the
system state unchanged. -/
def applySubmit (sender taskId : Nat) (ipfsHash : String)
    (submissionLocation : Location) (now : Nat) (s : SysState) : SysState :=
  match submitTaskCompletion sender taskId ipfsHash submissionLocation now s with
  | .ok p => p.1
  | .error _ => s

def freshTM : TMState :=
  ⟨0, fun _ => zeroTask, fun _ => [], fun _ _ => zeroClaim, fun _ => [], false⟩

def freshPool : PoolState := ⟨fun _ => 0, 0, fun _ => 0⟩

def freshAF : AFState :=
  ⟨fun _ => ⟨0, 0⟩, fun _ => [], fun _ => false, fun _ => 0, fun _ => 0, fun _ => false⟩

def freshSys : SysState := ⟨freshTM, freshPool, fun _ => zeroReputationData, freshAF⟩

/-- A reputation record driven to the floor: ten consecutive failed task
outcomes starting from the untouched (default) record. -/
def tenFailures : ReputationData :=
  applyRepOps (List.replicate 10 (RepOp.worker false)) zeroReputationData

/-- An active task, id 0, funded in escrow with 1 ether, deadline 10. -/
def c5Task : Task :=
  { zeroTask with creator := 1, bountyAmount := 1000000000000000000, deadline := 10 }

def c5Sys : SysState :=
  { freshSys with
    tm := { freshTM with tasks := updMap freshTM.tasks 0 c5Task },
    pool := { freshPool with
      taskBounties := updMap freshPool.taskBounties 0 1000000000000000000 } }

/-- Geofence pair at latitude 0 on the antimeridian: the two locations are
the same physical point (longitude 180° = longitude −180°), so their
great-circle distance is 0. -/
def cexReq : Location := ⟨0, 180000000, 1000⟩

def cexProv : Location := ⟨0, -180000000, 0⟩

/-- Task 0 requiring location, geofenced at `cexReq`, claimed by worker 2
at time 0, deadline 100. -/
def c6Task : Task :=
  { zeroTask with
    creator := 1,
    bountyAmount := MINIMUM_BOUNTY,
    deadline := 100,
    location := cexReq,
    requirements := { zeroRequirements with requiresLocation := true } }

def c6TM : TMState :=
  { freshTM with
    tasks := updMap freshTM.tasks 0 c6Task,
    taskClaims := updMap freshTM.taskClaims 0
      (updMap (freshTM.taskClaims 0) 2 ⟨2, 0, false⟩),
    workerActiveTasks := updMap freshTM.workerActiveTasks 2 [0],
    taskWorkers := updMap freshTM.taskWorkers 0 [2] }

def c6Sys : SysState := { freshSys with tm := c6TM }

/-- Task 0 with a far deadline, claimed by worker 2 at time 0; used to look
at the claim 24 h after it was made. -/
def c9Task : Task :=
  { zeroTask with creator := 1, bountyAmount := MINIMUM_BOUNTY, deadline := 1000000 }

def c9TM : TMState :=
  { freshTM with
    tasks := updMap freshTM.tasks 0 c9Task,
    taskClaims := updMap freshTM.taskClaims 0
      (updMap (freshTM.taskClaims 0) 2 ⟨2, 0, false⟩),
    workerActiveTasks := updMap freshTM.workerActiveTasks 2 [0],
    taskWorkers := updMap freshTM.taskWorkers 0 [2] }

def c9Sys : SysState := { freshSys with tm := c9TM }

/-- A pending submission by worker 2 on task 0, bounty 1 ether, with seven
distinct staked reviewers. -/
def c2Init : VSys :=
  initVSys 0 2 "img" zeroLocation 1000000000000000000 0 freshPool
    (fun _ => zeroReputationData)

def c2StakeOps : List VOp :=
  [.stake 11 VERIFICATION_STAKE 1, .stake 12 VERIFICATION_STAKE 1,
   .stake 13 VERIFICATION_STAKE 1, .stake 14 VERIFICATION_STAKE 1,
   .stake 15 VERIFICATION_STAKE 1, .stake 16 VERIFICATION_STAKE 1,
   .stake 17 VERIFICATION_STAKE 1]

def c2RejectOps : List VOp :=
  [.vote 11 false 2, .vote 12 false 2, .vote 13 false 2]

def c2ApproveOps : List VOp :=
  [.vote 14 true 3, .vote 15 true 3, .vote 16 true 3]

/-- A submission on a funded task taken to Verified consensus at time 10 by
three staked approving reviewers. -/
def c3Pool : PoolState :=
  { freshPool with taskBounties := updMap freshPool.taskBounties 0 1000000000000000000 }

def c3Init : VSys :=
  initVSys 0 2 "img" zeroLocation 1000000000000000000 0 c3Pool
    (fun _ => zeroReputationData)

def c3Ready : VSys :=
  runVOps c3Init
    [.stake 11 VERIFICATION_STAKE 1, .stake 12 VERIFICATION_STAKE 1,
     .stake 13 VERIFICATION_STAKE 1,
     .vote 11 true 10, .vote 12 true 10, .vote 13 true 10]

/-- The AntiFraud state after worker 1 successfully submits content hash
"img" at time 100 from the fresh state. -/
def c7S1 : AFState :=
  match checkAndRecordSubmission 1 0 "img" 7 100 freshAF with
  | .ok t => t
  | .error _ => freshAF

/-! ## Reputation lemmas -/

theorem applyRepOps_cons (a : RepOp) (l : List RepOp) (r : ReputationData) :
    applyRepOps (a :: l) r = applyRepOps l (applyRepOp r a) := rfl

theorem updateWorkerReputation_true_eq (r : ReputationData)
    (h : ¬(r.score = 0 ∧ r.tasksCompleted = 0 ∧ r.tasksRejected = 0)) :
    updateWorkerReputation true r =
      { r with score := min MAX_REPUTATION (r.score + REPUTATION_INCREASE),
               tasksCompleted := r.tasksCompleted + 1 } := by
  have hmin : (if r.score + REPUTATION_INCREASE ≤ MAX_REPUTATION then
      r.score + REPUTATION_INCREASE else MAX_REPUTATION)
      = min MAX_REPUTATION (r.score + REPUTATION_INCREASE) := by
    unfold MAX_REPUTATION REPUTATION_INCREASE
    split_ifs <;> omega
  simp [updateWorkerReputation, h, hmin]

theorem updateWorkerReputation_false_eq (r : ReputationData)
    (h : ¬(r.score = 0 ∧ r.tasksCompleted = 0 ∧ r.tasksRejected = 0)) :
    updateWorkerReputation false r =
      { r with score := r.score - REPUTATION_DECREASE,
               tasksRejected := r.tasksRejected + 1 } := by
  have hsub : (if REPUTATION_DECREASE ≤ r.score then
      r.score - REPUTATION_DECREASE else MIN_REPUTATION)
      = r.score - REPUTATION_DECREASE := by
    unfold REPUTATION_DECREASE MIN_REPUTATION
    split_ifs <;> omega
  simp [updateWorkerReputation, h, hsub]

theorem applyRepOp_score_le (r : ReputationData) (op : RepOp)
    (h : r.score ≤ MAX_REPUTATION) : (applyRepOp r op).score ≤ MAX_REPUTATION := by
  unfold MAX_REPUTATION at *
  cases op with
  | worker b =>
    cases b <;>
      (simp only [applyRepOp, updateWorkerReputation, INITIAL_REPUTATION,
        REPUTATION_INCREASE, REPUTATION_DECREASE, MAX_REPUTATION, MIN_REPUTATION]
       split_ifs <;> simp <;> omega)
  | workerCat c b =>
    cases b <;>
      (simp only [applyRepOp, updateWorkerReputationWithCategory, INITIAL_REPUTATION,
        REPUTATION_INCREASE, REPUTATION_DECREASE, MAX_REPUTATION, MIN_REPUTATION]
       split_ifs <;> simp <;> omega)
  | verifier b =>
    cases b <;>
      (simp only [applyRepOp, updateVerifierReputation, INITIAL_REPUTATION,
        REPUTATION_INCREASE, REPUTATION_DECREASE, MAX_REPUTATION, MIN_REPUTATION]
       split_ifs <;> simp <;> omega)

theorem applyRepOps_score_le (ops : List RepOp) (r : ReputationData)
    (h : r.score ≤ MAX_REPUTATION) : (applyRepOps ops r).score ≤ MAX_REPUTATION := by
  induction ops generalizing r with
  | nil => simpa [applyRepOps] using h
  | cons a l ih => rw [applyRepOps_cons]; exact ih _ (applyRepOp_score_le r a h)

theorem worker_success_run (n : Nat) :
    ∀ r : ReputationData, 1 ≤ r.tasksCompleted →
      r.score = min 100 (50 + 5 * r.tasksCompleted) →
      (applyRepOps (List.replicate n (RepOp.worker true)) r).score
          = min 100 (50 + 5 * (r.tasksCompleted + n)) ∧
      (applyRepOps (List.replicate n (RepOp.worker true)) r).tasksCompleted
          = r.tasksCompleted + n := by
  induction n with
  | zero => intro r h1 h2; exact ⟨by simpa [applyRepOps] using h2, by simp [applyRepOps]⟩
  | succ n ih =>
    intro r h1 h2
    rw [List.replicate_succ, applyRepOps_cons]
    have hne : ¬(r.score = 0 ∧ r.tasksCompleted = 0 ∧ r.tasksRejected = 0) := by
      rintro ⟨-, hc, -⟩; omega
    have hstep : applyRepOp r (RepOp.worker true) =
        { r with score := min MAX_REPUTATION (r.score + REPUTATION_INCREASE), tasksCompleted := r.tasksCompleted + 1 } :=
      updateWorkerReputation_true_eq r hne
    have hs : min MAX_REPUTATION (r.score + REPUTATION_INCREASE)
        = min 100 (50 + 5 * (r.tasksCompleted + 1)) := by
      unfold MAX_REPUTATION REPUTATION_INCREASE
      omega
    have h1' : 1 ≤ (applyRepOp r (RepOp.worker true)).tasksCompleted := by
      rw [hstep]; simp
    have h2' : (applyRepOp r (RepOp.worker true)).score
        = min 100 (50 + 5 * (applyRepOp r (RepOp.worker true)).tasksCompleted) := by
      rw [hstep]; simpa using hs
    obtain ⟨ha, hb⟩ := ih (applyRepOp r (RepOp.worker true)) h1' h2'
    have hc : (applyRepOp r (RepOp.worker true)).tasksCompleted = r.tasksCompleted + 1 := by
      rw [hstep]
    rw [hc] at ha hb
    refine ⟨?_, ?_⟩
    · rw [ha]; congr 1; omega
    · rw [hb]; omega

theorem worker_failure_run (n : Nat) :
    ∀ r : ReputationData, 1 ≤ r.tasksRejected →
      r.score = 50 - 5 * r.tasksRejected →
      (applyRepOps (List.replicate n (RepOp.worker false)) r).score
          = 50 - 5 * (r.tasksRejected + n) ∧
      (applyRepOps (List.replicate n (RepOp.worker false)) r).tasksRejected
          = r.tasksRejected + n := by
  induction n with
  | zero => intro r h1 h2; exact ⟨by simpa [applyRepOps] using h2, by simp [applyRepOps]⟩
  | succ n ih =>
    intro r h1 h2
    rw [List.replicate_succ, applyRepOps_cons]
    have hne : ¬(r.score = 0 ∧ r.tasksCompleted = 0 ∧ r.tasksRejected = 0) := by
      rintro ⟨-, -, hc⟩; omega
    have hstep : applyRepOp r (RepOp.worker false) =
        { r with score := r.score - REPUTATION_DECREASE, tasksRejected := r.tasksRejected + 1 } :=
      updateWorkerReputation_false_eq r hne
    have hs : r.score - REPUTATION_DECREASE = 50 - 5 * (r.tasksRejected + 1) := by
      unfold REPUTATION_DECREASE
      omega
    have h1' : 1 ≤ (applyRepOp r (RepOp.worker false)).tasksRejected := by
      rw [hstep]; simp
    have h2' : (applyRepOp r (RepOp.worker false)).score
        = 50 - 5 * (applyRepOp r (RepOp.worker false)).tasksRejected := by
      rw [hstep]; simpa using hs
    obtain ⟨ha, hb⟩ := ih (applyRepOp r (RepOp.worker false)) h1' h2'
    have hc : (applyRepOp r (RepOp.worker false)).tasksRejected = r.tasksRejected + 1 := by
      rw [hstep]
    rw [hc] at ha hb
    refine ⟨?_, ?_⟩
    · rw [ha]; omega
    · rw [hb]; omega

/-- C8 (counterexample): starting from the default record, ten failed task
outcomes drive the stored score to 0; the next adjudicated outcome — an
accurate verification — does not move the score by 5 but by 55, because
`updateVerifierReputation` re-runs its lazy initialization (the record has
`score = 0` and `verificationsPerformed = 0`) and resets the score to 50
before adding 5.  This refutes "each adjudicated outcome moves the score by
exactly 5 with saturation at the bounds". -/
theorem c8_counterexample :
    tenFailures.score = 0 ∧ (updateVerifierReputation true tenFailures).score = 55 := by
  decide

/-- C8 (amended): the reputation score never exceeds 100 under any sequence
of worker/category/verifier updates (and, being a `uint256`, never drops
below 0); starting from the default record, N consecutive successful task
outcomes yield `getReputationScore = min 100 (50 + 5N)` and N consecutive
failed outcomes yield `max 0 (50 − 5N)` (truncated subtraction); and a
worker update moves the score by exactly ±5 with saturation whenever it does
not hit the lazy re-initialization case (score 0 with both task counters 0),
in which the score is first reset to 50. -/
theorem c8_reputation_score_dynamics :
    (∀ ops : List RepOp, (applyRepOps ops zeroReputationData).score ≤ MAX_REPUTATION) ∧
    (∀ N : Nat, getReputationScore
        (applyRepOps (List.replicate N (RepOp.worker true)) zeroReputationData)
        = min 100 (50 + 5 * N)) ∧
    (∀ N : Nat, getReputationScore
        (applyRepOps (List.replicate N (RepOp.worker false)) zeroReputationData)
        = 50 - 5 * N) ∧
    (∀ (successful : Bool) (r : ReputationData),
        ¬(r.score = 0 ∧ r.tasksCompleted = 0 ∧ r.tasksRejected = 0) →
        (updateWorkerReputation successful r).score
          = if successful = true then min 100 (r.score + 5) else r.score - 5) := by
  refine ⟨?_, ?_, ?_, ?_⟩
  · intro ops
    exact applyRepOps_score_le ops zeroReputationData (by decide)
  · intro N
    cases N with
    | zero => decide
    | succ n =>
      rw [List.replicate_succ, applyRepOps_cons]
      have h1' : 1 ≤ (applyRepOp zeroReputationData (RepOp.worker true)).tasksCompleted := by
        decide
      have h2' : (applyRepOp zeroReputationData (RepOp.worker true)).score
          = min 100 (50 + 5 * (applyRepOp zeroReputationData (RepOp.worker true)).tasksCompleted) := by
        decide
      obtain ⟨ha, hb⟩ := worker_success_run n (applyRepOp zeroReputationData (RepOp.worker true)) h1' h2'
      have hc : (applyRepOp zeroReputationData (RepOp.worker true)).tasksCompleted = 1 := by decide
      rw [hc] at ha
      have hpos : (applyRepOps (List.replicate n (RepOp.worker true))
          (applyRepOp zeroReputationData (RepOp.worker true))).score ≠ 0 := by
        rw [ha]; omega
      unfold getReputationScore
      rw [if_neg (by rintro ⟨h0, -⟩; exact hpos h0)]
      rw [ha]; congr 1; omega
  · intro N
    cases N with
    | zero => decide
    | succ n =>
      rw [List.replicate_succ, applyRepOps_cons]
      have h1' : 1 ≤ (applyRepOp zeroReputationData (RepOp.worker false)).tasksRejected := by
        decide
      have h2' : (applyRepOp zeroReputationData (RepOp.worker false)).score
          = 50 - 5 * (applyRepOp zeroReputationData (RepOp.worker false)).tasksRejected := by
        decide
      obtain ⟨ha, hb⟩ := worker_failure_run n (applyRepOp zeroReputationData (RepOp.worker false)) h1' h2'
      have hc : (applyRepOp zeroReputationData (RepOp.worker false)).tasksRejected = 1 := by decide
      rw [hc] at ha hb
      have hrej : (applyRepOps (List.replicate n (RepOp.worker false))
          (applyRepOp zeroReputationData (RepOp.worker false))).tasksRejected ≠ 0 := by
        rw [hb]; omega
      unfold getReputationScore
      rw [if_neg (by rintro ⟨-, -, h0, -⟩; exact hrej h0)]
      rw [ha]; omega
  · intro successful r h
    cases successful with
    | true =>
      rw [updateWorkerReputation_true_eq r h]
      simp [MAX_REPUTATION, REPUTATION_INCREASE]
    | false =>
      rw [updateWorkerReputation_false_eq r h]
      simp [REPUTATION_DECREASE]

/-- Witness for C8's amended theorem: concrete instantiation of the ±5 step
clause at the record produced by ten failures (score 0, but task counters
non-zero, so no re-initialization). -/
theorem c8_reputation_score_dynamics_witness :
    ¬(tenFailures.score = 0 ∧ tenFailures.tasksCompleted = 0 ∧ tenFailures.tasksRejected = 0) ∧
    (updateWorkerReputation false tenFailures).score
      = (if false = true then min 100 (tenFailures.score + 5) else tenFailures.score - 5) :=
  ⟨by decide, c8_reputation_score_dynamics.2.2.2 false tenFailures (by decide)⟩

/-- C10: on a record whose stored score was driven to the floor 0 while its
activity counters are non-zero, `getReputationScore` returns the stored 0
(its guard requires all four counters to be zero), while
`getReputationData` maps a zero stored score to the initial 50 — the two
query operations disagree on the same state. -/
theorem c10_score_query_disagreement (r : ReputationData)
    (h0 : r.score = 0) (hact : r.tasksRejected ≠ 0) :
    getReputationScore r = 0 ∧ getReputationDataScore r = 50 := by
  constructor
  · unfold getReputationScore
    rw [if_neg (by rintro ⟨-, -, h, -⟩; exact hact h)]
    exact h0
  · unfold getReputationDataScore INITIAL_REPUTATION
    rw [if_pos h0]

/-- Witness for C10 at the record reached by ten consecutive failures. -/
theorem c10_score_query_disagreement_witness :
    tenFailures.score = 0 ∧ tenFailures.tasksRejected ≠ 0 ∧
      (getReputationScore tenFailures = 0 ∧ getReputationDataScore tenFailures = 50) :=
  ⟨by decide, by decide, c10_score_query_disagreement tenFailures (by decide) (by decide)⟩

/-- C4: `Escrow.distributeReward` reverts with the insufficient-bounty
error (hence no state change) when the task balance is below the amount;
otherwise, in one atomic step, it deducts the basis-point fee
`amount · 250 / 10000`, credits the worker exactly `amount` minus that fee,
decrements the task balance by the full amount, adds exactly the fee to the
platform-fee pool, and touches no other balance. -/
theorem c4_distributeReward_exact (pool : PoolState) (taskId worker amount : Nat) :
    (pool.taskBounties taskId < amount →
      distributeReward taskId worker amount pool
        = .error (.insufficientBounty taskId amount (pool.taskBounties taskId))) ∧
    (amount ≤ pool.taskBounties taskId →
      ∃ p', distributeReward taskId worker amount pool = .ok p' ∧
        p'.taskBounties taskId = pool.taskBounties taskId - amount ∧
        (∀ t, t ≠ taskId → p'.taskBounties t = pool.taskBounties t) ∧
        p'.accumulatedFees = pool.accumulatedFees + amount * 250 / 10000 ∧
        p'.accountBalance worker
          = pool.accountBalance worker + (amount - amount * 250 / 10000) ∧
        (∀ a, a ≠ worker → p'.accountBalance a = pool.accountBalance a)) := by
  constructor
  · intro h
    unfold distributeReward
    rw [if_pos h]
  · intro h
    unfold distributeReward
    rw [if_neg (Nat.not_lt.mpr h)]
    refine ⟨_, rfl, ?_, ?_, ?_, ?_, ?_⟩
    · simp [updMap]
    · intro t ht; simp [updMap, ht]
    · simp [PLATFORM_FEE_PERCENTAGE, BASIS_POINTS]
    · simp [updMap, PLATFORM_FEE_PERCENTAGE, BASIS_POINTS]
    · intro a ha; simp [updMap, ha]

/-- Witness for C4 on the concretely funded pool (1 ether escrowed for
task 0), paying worker 3 the full bounty. -/
theorem c4_distributeReward_exact_witness :
    1000000000000000000 ≤ c3Pool.taskBounties 0 ∧
    (∃ p', distributeReward 0 3 1000000000000000000 c3Pool = .ok p' ∧
      p'.taskBounties 0 = c3Pool.taskBounties 0 - 1000000000000000000 ∧
      (∀ t, t ≠ 0 → p'.taskBounties t = c3Pool.taskBounties t) ∧
      p'.accumulatedFees = c3Pool.accumulatedFees + 1000000000000000000 * 250 / 10000 ∧
      p'.accountBalance 3
        = c3Pool.accountBalance 3 + (1000000000000000000 - 1000000000000000000 * 250 / 10000) ∧
      (∀ a, a ≠ 3 → p'.accountBalance a = c3Pool.accountBalance a)) :=
  ⟨by decide, (c4_distributeReward_exact c3Pool 0 3 1000000000000000000).2 (by decide)⟩

/-- C1 (counterexample): a `createTask` call with zero attached funds
(`msg.value = 0`, far below the 0.5-ether minimum bounty) but a
`bountyAmount` parameter equal to the minimum succeeds — the task is created
`Active` — and the Escrow balance for the new task id stays 0: nothing is
forwarded to the BountyPool.  This refutes both the "rejects whenever the
attached funds are below the configured minimum" and the "forwards the
attached funds atomically to the Escrow" parts of the claim. -/
theorem c1_counterexample :
    0 < MINIMUM_BOUNTY ∧
    (sysCreateTask 1 0 "d" TaskCategory.photoVerification MINIMUM_BOUNTY 5
        zeroLocation 100 zeroRequirements 0 freshSys).toOption.map
        (fun p => ((p.1.tm.tasks p.2).status, p.1.pool.taskBounties p.2,
          p.1.pool.accumulatedFees))
      = some (TaskStatus.active, 0, 0) := by
  decide

/-- C1 (amended): `createTask` validates the `bountyAmount` parameter (not
the attached funds) against the minimum bounty and requires the deadline to
be strictly in the future, reverting with no state change otherwise; on
success it stores the task with status Active under the next task id, but
forwards nothing to Escrow — the BountyPool, reputation and anti-fraud
components are untouched, and escrow funding requires a separate
`depositBounty` call. -/
theorem c1_createTask_behavior (sender msgValue : Nat) (description : String)
    (category : TaskCategory) (bountyAmount maxWorkers : Nat) (location : Location)
    (deadline : Nat) (requirements : TaskRequirements) (now : Nat) (s : SysState) :
    (bountyAmount < MINIMUM_BOUNTY →
      sysCreateTask sender msgValue description category bountyAmount maxWorkers
          location deadline requirements now s
        = .error (.insufficientBounty bountyAmount MINIMUM_BOUNTY)) ∧
    (MINIMUM_BOUNTY ≤ bountyAmount → deadline ≤ now →
      sysCreateTask sender msgValue description category bountyAmount maxWorkers
          location deadline requirements now s
        = .error (.deadlineExpired 0 deadline)) ∧
    (MINIMUM_BOUNTY ≤ bountyAmount → now < deadline →
      ∃ s', sysCreateTask sender msgValue description category bountyAmount maxWorkers
          location deadline requirements now s = .ok (s', s.tm.taskIdCounter) ∧
        (s'.tm.tasks s.tm.taskIdCounter).status = .active ∧
        (s'.tm.tasks s.tm.taskIdCounter).bountyAmount = bountyAmount ∧
        (s'.tm.tasks s.tm.taskIdCounter).creator = sender ∧
        s'.tm.taskIdCounter = s.tm.taskIdCounter + 1 ∧
        s'.pool = s.pool ∧ s'.rep = s.rep ∧ s'.af = s.af) := by
  refine ⟨?_, ?_, ?_⟩
  · intro h
    unfold sysCreateTask createTask
    rw [if_pos h]
  · intro h1 h2
    unfold sysCreateTask createTask
    rw [if_neg (Nat.not_lt.mpr h1), if_pos h2]
  · intro h1 h2
    unfold sysCreateTask createTask
    rw [if_neg (Nat.not_lt.mpr h1), if_neg (Nat.not_le.mpr h2)]
    refine ⟨_, rfl, ?_, ?_, ?_, rfl, rfl, rfl, rfl⟩ <;> simp [updMap]

/-- Witness for C1's amended theorem: a fresh system, bounty parameter at
the minimum, deadline 100 at time 0. -/
theorem c1_createTask_behavior_witness :
    MINIMUM_BOUNTY ≤ MINIMUM_BOUNTY ∧ (0 : Nat) < 100 ∧
    (∃ s', sysCreateTask 1 0 "d" TaskCategory.photoVerification MINIMUM_BOUNTY 5
        zeroLocation 100 zeroRequirements 0 freshSys = .ok (s', freshSys.tm.taskIdCounter) ∧
      (s'.tm.tasks freshSys.tm.taskIdCounter).status = .active ∧
      (s'.tm.tasks freshSys.tm.taskIdCounter).bountyAmount = MINIMUM_BOUNTY ∧
      (s'.tm.tasks freshSys.tm.taskIdCounter).creator = 1 ∧
      s'.tm.taskIdCounter = freshSys.tm.taskIdCounter + 1 ∧
      s'.pool = freshSys.pool ∧ s'.rep = freshSys.rep ∧ s'.af = freshSys.af) :=
  ⟨le_refl _, by decide,
    (c1_createTask_behavior 1 0 "d" TaskCategory.photoVerification MINIMUM_BOUNTY 5
      zeroLocation 100 zeroRequirements 0 freshSys).2.2 (le_refl _) (by decide)⟩

/-- C5 (counterexample): on a task whose deadline (10) has passed at time
11, funded with 1 ether in escrow, `expireTask` succeeds and marks the task
Expired — but the escrow balance for the task is still the full 1 ether,
the requester's balance is unchanged and no fee was taken: no Escrow refund
(fee-adjusted or otherwise) is triggered, refuting that part of the claim. -/
theorem c5_counterexample :
    (sysExpireTask 0 11 c5Sys).toOption.map
        (fun p => ((p.1.tm.tasks 0).status, p.2, p.1.pool.taskBounties 0,
          p.1.pool.accountBalance 1, p.1.pool.accumulatedFees))
      = some (TaskStatus.expired, true, 1000000000000000000, 0, 0) := by
  decide

/-- C5 (amended): `expireTask` reverts while the deadline has not passed,
returns `false` without any state change when the task is already Expired
or Completed, and otherwise marks the task Expired — without invoking any
Escrow refund (pool, reputation and anti-fraud state are untouched).  The
Escrow's `refundBounty` (which does apply the 5% fee) exists but is never
called from the expiration path; its behaviour when invoked directly is
recorded in the last clause. -/
theorem c5_expireTask_behavior (taskId now : Nat) (s : SysState) :
    ((s.tm.tasks taskId).id = taskId → now ≤ (s.tm.tasks taskId).deadline →
      sysExpireTask taskId now s
        = .error (.deadlineExpired taskId (s.tm.tasks taskId).deadline)) ∧
    ((s.tm.tasks taskId).id = taskId → (s.tm.tasks taskId).deadline < now →
      ((s.tm.tasks taskId).status = .expired ∨ (s.tm.tasks taskId).status = .completed) →
      sysExpireTask taskId now s = .ok (s, false)) ∧
    ((s.tm.tasks taskId).id = taskId → (s.tm.tasks taskId).deadline < now →
      ¬((s.tm.tasks taskId).status = .expired ∨ (s.tm.tasks taskId).status = .completed) →
      ∃ s', sysExpireTask taskId now s = .ok (s', true) ∧
        (s'.tm.tasks taskId).status = .expired ∧
        s'.pool = s.pool ∧ s'.rep = s.rep ∧ s'.af = s.af) ∧
    (∀ (pool : PoolState) (creator amount : Nat), amount ≤ pool.taskBounties taskId →
      ∃ p', refundBounty taskId creator amount pool = .ok p' ∧
        p'.accountBalance creator
          = pool.accountBalance creator + (amount - amount * 500 / 10000) ∧
        p'.taskBounties taskId = pool.taskBounties taskId - amount ∧
        p'.accumulatedFees = pool.accumulatedFees + amount * 500 / 10000) := by
  refine ⟨?_, ?_, ?_, ?_⟩
  · intro hid hd
    unfold sysExpireTask expireTask
    rw [if_neg (by simpa using hid), if_pos hd]
  · intro hid hd hst
    unfold sysExpireTask expireTask
    rw [if_neg (by simpa using hid), if_neg (Nat.not_le.mpr hd), if_pos hst]
  · intro hid hd hst
    unfold sysExpireTask expireTask
    rw [if_neg (by simpa using hid), if_neg (Nat.not_le.mpr hd), if_neg hst]
    refine ⟨_, rfl, ?_, rfl, rfl, rfl⟩
    simp [updMap]
  · intro pool creator amount h
    unfold refundBounty
    rw [if_neg (Nat.not_lt.mpr h)]
    refine ⟨_, rfl, ?_, ?_, ?_⟩
    · simp [updMap, EXPIRED_TASK_FEE_PERCENTAGE, BASIS_POINTS]
    · simp [updMap]
    · simp [EXPIRED_TASK_FEE_PERCENTAGE, BASIS_POINTS]

/-- Witness for C5's amended theorem at the funded, past-deadline task. -/
theorem c5_expireTask_behavior_witness :
    (c5Sys.tm.tasks 0).id = 0 ∧ (c5Sys.tm.tasks 0).deadline < 11 ∧
    ¬((c5Sys.tm.tasks 0).status = .expired ∨ (c5Sys.tm.tasks 0).status = .completed) ∧
    (∃ s', sysExpireTask 0 11 c5Sys = .ok (s', true) ∧
      (s'.tm.tasks 0).status = .expired ∧
      s'.pool = c5Sys.pool ∧ s'.rep = c5Sys.rep ∧ s'.af = c5Sys.af) :=
  ⟨by decide, by decide, by decide,
    (c5_expireTask_behavior 0 11 c5Sys).2.2.1 (by decide) (by decide) (by decide)⟩

/-- C6 (counterexample): the code's geofence check is not the haversine
formula.  At latitude 0 the longitudes 180° and −180° denote the same
physical point, so the haversine great-circle distance is 0 — inside any
positive radius, and the spec-side check accepts.  The source's
`_isWithinRadius` instead computes the planar squared difference of the raw
scaled coordinates (360° apart) and rejects: on a location-required task
geofenced there, `submitTaskCompletion` reverts with
`OutsideLocationRadius`. -/
theorem c6_counterexample :
    errOf (submitTaskCompletion 2 0 "img" cexProv 5 c6Sys)
        = some (.outsideLocationRadius 0 180000000 0 (-180000000)) ∧
    isWithinRadius cexReq cexProv = false ∧
    isWithinRadiusHaversine cexReq cexProv := by
  refine ⟨by decide, by decide, ?_⟩
  unfold isWithinRadiusHaversine haversineDistanceMeters degreesOfScaled cexReq cexProv
  push_cast
  norm_num [Real.sin_zero, Real.cos_zero]
  have h2 : -(360 * Real.pi) / 180 / 2 = -Real.pi := by ring
  rw [h2, Real.sin_neg, Real.sin_pi]
  norm_num [Real.sqrt_zero, Real.arcsin_zero]

/-- C6 (amended): when a task requires location, `submitTaskCompletion`
rejects (with `OutsideLocationRadius`, and hence no state change) any
submission whose location fails the source's planar check
`_isWithinRadius` — the squared coordinate-difference comparison against
`radius²·10¹²/111000²` — which is a simplified planar approximation, not
the haversine great-circle formula. -/
theorem c6_geofence_rejection (sender taskId : Nat) (ipfsHash : String)
    (loc : Location) (now : Nat) (s : SysState)
    (hid : (s.tm.tasks taskId).id = taskId)
    (hclaim : (s.tm.taskClaims taskId sender).worker ≠ 0)
    (hdl : ¬ (s.tm.tasks taskId).deadline < now)
    (hto : ¬ (s.tm.taskClaims taskId sender).claimedAt + TASK_COMPLETION_TIMEOUT < now)
    (hreq : (s.tm.tasks taskId).requirements.requiresLocation = true)
    (hout : isWithinRadius (s.tm.tasks taskId).location loc = false) :
    submitTaskCompletion sender taskId ipfsHash loc now s =
      .error (.outsideLocationRadius (s.tm.tasks taskId).location.latitude
        (s.tm.tasks taskId).location.longitude loc.latitude loc.longitude) := by
  simp only [submitTaskCompletion]
  rw [if_neg (by simp [hid]), if_neg hclaim, if_neg hdl, if_neg hto, if_pos ⟨hreq, hout⟩]

/-- Witness for C6's amended theorem at the antimeridian geofence. -/
theorem c6_geofence_rejection_witness :
    (c6Sys.tm.tasks 0).id = 0 ∧
    (c6Sys.tm.taskClaims 0 2).worker ≠ 0 ∧
    ¬(c6Sys.tm.tasks 0).deadline < 5 ∧
    ¬(c6Sys.tm.taskClaims 0 2).claimedAt + TASK_COMPLETION_TIMEOUT < 5 ∧
    (c6Sys.tm.tasks 0).requirements.requiresLocation = true ∧
    isWithinRadius (c6Sys.tm.tasks 0).location cexProv = false ∧
    submitTaskCompletion 2 0 "img" cexProv 5 c6Sys =
      .error (.outsideLocationRadius (c6Sys.tm.tasks 0).location.latitude
        (c6Sys.tm.tasks 0).location.longitude cexProv.latitude cexProv.longitude) :=
  ⟨by decide, by decide, by decide, by decide, by decide, by decide,
    c6_geofence_rejection 2 0 "img" cexProv 5 c6Sys (by decide) (by decide)
      (by decide) (by decide) (by decide) (by decide)⟩

/-- C9 (counterexample): worker 2 claimed task 0 at time 0; at time 86401
(one second past the 24-hour completion window) the submission attempt
reverts — but the reverted transaction changes nothing: the task id is
still in the worker's active-claim set (the slot is not freed) and the
worker's reputation is unchanged (no penalty is applied; the TaskManager
source contains no claim-expiry release path and no reputation call at
all). -/
theorem c9_counterexample :
    errOf (submitTaskCompletion 2 0 "img" zeroLocation 86401 c9Sys)
        = some (.deadlineExpired 0 86400) ∧
    (applySubmit 2 0 "img" zeroLocation 86401 c9Sys).tm.workerActiveTasks 2 = [0] ∧
    getReputationScore ((applySubmit 2 0 "img" zeroLocation 86401 c9Sys).rep 2)
        = getReputationScore (c9Sys.rep 2) := by
  decide

/-- C9 (amended): once 24 hours have elapsed since a claim was made, the
worker can indeed no longer submit against it — `submitTaskCompletion`
always reverts with a deadline error — but the expired claim is not
released: the reverting call leaves the whole system state (in particular
the worker's active-claim set and reputation) exactly as it was, and no
other code path releases the claim or applies a penalty. -/
theorem c9_claim_timeout_behavior (sender taskId : Nat) (ipfsHash : String)
    (loc : Location) (now : Nat) (s : SysState)
    (hid : (s.tm.tasks taskId).id = taskId)
    (hclaim : (s.tm.taskClaims taskId sender).worker ≠ 0)
    (hexp : (s.tm.taskClaims taskId sender).claimedAt + TASK_COMPLETION_TIMEOUT < now) :
    (∃ d, submitTaskCompletion sender taskId ipfsHash loc now s
        = .error (.deadlineExpired taskId d)) ∧
    applySubmit sender taskId ipfsHash loc now s = s := by
  by_cases hdl : (s.tm.tasks taskId).deadline < now
  · have herr : submitTaskCompletion sender taskId ipfsHash loc now s
        = .error (.deadlineExpired taskId (s.tm.tasks taskId).deadline) := by
      simp only [submitTaskCompletion]
      rw [if_neg (by simp [hid]), if_neg hclaim, if_pos hdl]
    exact ⟨⟨_, herr⟩, by simp [applySubmit, herr]⟩
  · have herr : submitTaskCompletion sender taskId ipfsHash loc now s
        = .error (.deadlineExpired taskId
          ((s.tm.taskClaims taskId sender).claimedAt + TASK_COMPLETION_TIMEOUT)) := by
      simp only [submitTaskCompletion]
      rw [if_neg (by simp [hid]), if_neg hclaim, if_neg hdl, if_pos hexp]
    exact ⟨⟨_, herr⟩, by simp [applySubmit, herr]⟩

/-- Witness for C9's amended theorem one second past the 24-hour window. -/
theorem c9_claim_timeout_behavior_witness :
    (c9Sys.tm.tasks 0).id = 0 ∧
    (c9Sys.tm.taskClaims 0 2).worker ≠ 0 ∧
    (c9Sys.tm.taskClaims 0 2).claimedAt + TASK_COMPLETION_TIMEOUT < 86401 ∧
    ((∃ d, submitTaskCompletion 2 0 "img" zeroLocation 86401 c9Sys
        = .error (.deadlineExpired 0 d)) ∧
      applySubmit 2 0 "img" zeroLocation 86401 c9Sys = c9Sys) :=
  ⟨by decide, by decide, by decide,
    c9_claim_timeout_behavior 2 0 "img" zeroLocation 86401 c9Sys
      (by decide) (by decide) (by decide)⟩

/-! ## AntiFraud lemmas -/

theorem checkAndRecordSubmission_ok_hashes (w taskId : Nat) (h2 : String)
    (meta now : Nat) (s s' : AFState)
    (hok : checkAndRecordSubmission w taskId h2 meta now s = .ok s') :
    s.usedImageHashes h2 = false ∧
    s'.usedImageHashes = updMap s.usedImageHashes h2 true ∧
    s'.imageHashToWorker = updMap s.imageHashToWorker h2 w := by
  simp only [checkAndRecordSubmission] at hok
  split_ifs at hok <;>
    first
      | exact Except.noConfusion hok
      | (injection hok with hh
         subst hh
         exact ⟨by simp_all, by simp, by simp⟩)

/-- C7: content-hash uniqueness in AntiFraud.  First clause: a submission
with a hash not yet in the global index, passing the blacklist, rate-limit
and metadata checks, is accepted and claims the hash for its worker.
Second clause: once a hash is in the index, every further submission with
the same hash is rejected, and — whenever it gets as far as the duplicate
check (not blacklisted, under the daily limit) — the rejection error names
the recorded original claimant.  Third clause: no successful admission ever
rewrites an existing hash-to-worker binding, so a content hash is claimed
by exactly one worker, forever. -/
theorem c7_content_hash_uniqueness (s : AFState) :
    (∀ (w taskId : Nat) (h : String) (meta now : Nat),
      s.blacklistedWorkers w = false →
      (if (s.workerDailySubmissions w).date ≠ getCurrentDay now then 0
        else (s.workerDailySubmissions w).count) < MAX_SUBMISSIONS_PER_DAY →
      s.usedImageHashes h = false → meta ≠ 0 →
      ∃ s', checkAndRecordSubmission w taskId h meta now s = .ok s' ∧
        s'.usedImageHashes h = true ∧ s'.imageHashToWorker h = w) ∧
    (∀ (w taskId : Nat) (h : String) (meta now : Nat),
      s.usedImageHashes h = true →
      (∃ e, checkAndRecordSubmission w taskId h meta now s = .error e) ∧
      (s.blacklistedWorkers w = false →
        (if (s.workerDailySubmissions w).date ≠ getCurrentDay now then 0
          else (s.workerDailySubmissions w).count) < MAX_SUBMISSIONS_PER_DAY →
        checkAndRecordSubmission w taskId h meta now s
          = .error (.duplicateImageDetected h (s.imageHashToWorker h)))) ∧
    (∀ (w taskId : Nat) (h2 h : String) (meta now : Nat) (s' : AFState) (w0 : Nat),
      s.usedImageHashes h = true → s.imageHashToWorker h = w0 →
      checkAndRecordSubmission w taskId h2 meta now s = .ok s' →
      s'.usedImageHashes h = true ∧ s'.imageHashToWorker h = w0) := by
  refine ⟨?_, ?_, ?_⟩
  · intro w taskId h meta now hbl hcnt hused hmeta
    simp only [checkAndRecordSubmission]
    rw [if_neg (by simp [hbl])]
    by_cases hd : (s.workerDailySubmissions w).date ≠ getCurrentDay now
    · rw [if_pos hd] at hcnt ⊢
      rw [if_neg (by simpa using Nat.not_le.mpr hcnt), if_neg (by simp [hused]),
        if_neg hmeta]
      exact ⟨_, rfl, by simp [updMap], by simp [updMap]⟩
    · rw [if_neg hd] at hcnt ⊢
      rw [if_neg (by simpa using Nat.not_le.mpr hcnt), if_neg (by simp [hused]),
        if_neg hmeta]
      exact ⟨_, rfl, by simp [updMap], by simp [updMap]⟩
  · intro w taskId h meta now hused
    have hdup : ∀ hbl : s.blacklistedWorkers w = false,
        ∀ hcnt : (if (s.workerDailySubmissions w).date ≠ getCurrentDay now then 0
          else (s.workerDailySubmissions w).count) < MAX_SUBMISSIONS_PER_DAY,
        checkAndRecordSubmission w taskId h meta now s
          = .error (.duplicateImageDetected h (s.imageHashToWorker h)) := by
      intro hbl hcnt
      simp only [checkAndRecordSubmission]
      rw [if_neg (by simp [hbl])]
      by_cases hd : (s.workerDailySubmissions w).date ≠ getCurrentDay now
      · rw [if_pos hd] at hcnt ⊢
        rw [if_neg (by simpa using Nat.not_le.mpr hcnt), if_pos hused]
      · rw [if_neg hd] at hcnt ⊢
        rw [if_neg (by simpa using Nat.not_le.mpr hcnt), if_pos hused]
    constructor
    · by_cases hbl : s.blacklistedWorkers w
      · exact ⟨_, by simp only [checkAndRecordSubmission]; rw [if_pos hbl]⟩
      · have hbl' : s.blacklistedWorkers w = false := by simpa using hbl
        by_cases hcnt : (if (s.workerDailySubmissions w).date ≠ getCurrentDay now then 0
            else (s.workerDailySubmissions w).count) < MAX_SUBMISSIONS_PER_DAY
        · exact ⟨_, hdup hbl' hcnt⟩
        · refine ⟨.rateLimitExceeded w (if (s.workerDailySubmissions w).date
              ≠ getCurrentDay now then 0 else (s.workerDailySubmissions w).count), ?_⟩
          simp only [checkAndRecordSubmission]
          rw [if_neg (by simp [hbl'])]
          by_cases hd : (s.workerDailySubmissions w).date ≠ getCurrentDay now
          · rw [if_pos hd] at hcnt ⊢
            rw [if_pos (by simpa using Nat.le_of_not_lt hcnt)]
            simp [hd]
          · rw [if_neg hd] at hcnt ⊢
            rw [if_pos (by simpa using Nat.le_of_not_lt hcnt)]
            simp [hd]
    · exact hdup
  · intro w taskId h2 h meta now s' w0 hused howner hok
    obtain ⟨hnew, hu, hw⟩ := checkAndRecordSubmission_ok_hashes w taskId h2 meta now s s' hok
    have hne : h ≠ h2 := by
      intro e
      rw [e] at hused
      rw [hused] at hnew
      exact Bool.noConfusion hnew
    rw [hu, hw]
    exact ⟨by rw [updMap_other _ _ _ _ hne, hused],
      by rw [updMap_other _ _ _ _ hne, howner]⟩

/-- Witness for C7 at a concrete pair of submissions: worker 1 claimed
"img"; worker 2's later duplicate is rejected naming worker 1. -/
theorem c7_content_hash_uniqueness_witness :
    c7S1.usedImageHashes "img" = true ∧
    ((∃ e, checkAndRecordSubmission 2 0 "img" 7 200 c7S1 = .error e) ∧
     (c7S1.blacklistedWorkers 2 = false →
       (if (c7S1.workerDailySubmissions 2).date ≠ getCurrentDay 200 then 0
         else (c7S1.workerDailySubmissions 2).count) < MAX_SUBMISSIONS_PER_DAY →
       checkAndRecordSubmission 2 0 "img" 7 200 c7S1
         = .error (.duplicateImageDetected "img" (c7S1.imageHashToWorker "img")))) :=
  ⟨by decide, (c7_content_hash_uniqueness c7S1).2.1 2 0 "img" 7 200 (by decide)⟩

/-! ## Verification-engine lemmas: the votes mapping -/

theorem setVote_countP (votes : List (Nat × VVote)) (a : Nat) (v : VVote)
    (h : (getVote votes a).hasVoted = false) :
    (setVote votes a v).countP (fun kv => kv.2.hasVoted)
      = votes.countP (fun kv => kv.2.hasVoted) + (if v.hasVoted then 1 else 0) := by
  induction votes with
  | nil => simp [setVote, List.countP_cons]
  | cons kv rest ih =>
    by_cases hk : kv.1 = a
    · have hg : getVote (kv :: rest) a = kv.2 := by
        simp [getVote, List.find?, hk]
      rw [hg] at h
      simp [setVote, hk, List.countP_cons, h]
      try omega
    · have hg : getVote (kv :: rest) a = getVote rest a := by
        simp [getVote, List.find?, hk]
      rw [hg] at h
      simp [setVote, hk, List.countP_cons, ih h]
      try omega

theorem setVote_length_le (votes : List (Nat × VVote)) (a : Nat) (v : VVote) :
    (setVote votes a v).length ≤ votes.length + 1 := by
  induction votes with
  | nil => simp [setVote]
  | cons kv rest ih =>
    by_cases hk : kv.1 = a <;> simp [setVote, hk] <;> omega

theorem setVote_length_of_staked (votes : List (Nat × VVote)) (a : Nat) (v : VVote)
    (h : (getVote votes a).stake ≠ 0) :
    (setVote votes a v).length = votes.length := by
  induction votes with
  | nil => simp [getVote, zeroVVote] at h
  | cons kv rest ih =>
    by_cases hk : kv.1 = a
    · simp [setVote, hk]
    · have hg : getVote (kv :: rest) a = getVote rest a := by
        simp [getVote, List.find?, hk]
      rw [hg] at h
      simp [setVote, hk, ih h]

/-! ## Verification-engine lemmas: single calls -/

theorem applyVOp_of_ok (s s' : VSys) (op : VOp) (h : execVOp s op = .ok s') :
    applyVOp s op = s' := by
  simp [applyVOp, h]

theorem applyVOp_of_error (s : VSys) (op : VOp) (e : VCError)
    (h : execVOp s op = .error e) : applyVOp s op = s := by
  simp [applyVOp, h]

theorem checkConsensus_counts (now : Nat) (t : VSys) :
    (checkConsensus now t).sub.approvalCount = t.sub.approvalCount ∧
    (checkConsensus now t).sub.rejectionCount = t.sub.rejectionCount ∧
    (checkConsensus now t).sub.totalVotes = t.sub.totalVotes ∧
    (checkConsensus now t).votes = t.votes ∧
    (checkConsensus now t).verifiers = t.verifiers := by
  unfold checkConsensus
  split_ifs <;> simp

theorem checkConsensus_verified (now : Nat) (t : VSys)
    (h : CONSENSUS_THRESHOLD ≤ t.sub.approvalCount) :
    (checkConsensus now t).sub.status = .verified := by
  unfold checkConsensus
  rw [if_pos h]

theorem checkConsensus_rejected (now : Nat) (t : VSys)
    (h1 : t.sub.approvalCount < CONSENSUS_THRESHOLD)
    (h2 : CONSENSUS_THRESHOLD ≤ t.sub.rejectionCount) :
    (checkConsensus now t).sub.status = .rejected := by
  unfold checkConsensus
  rw [if_neg (Nat.not_le.mpr h1), if_pos h2]

theorem stake_ok_inv (sender msgValue now : Nat) (s s' : VSys)
    (h : stakeForVerification sender msgValue now s = .ok s') :
    (getVote s.votes sender).hasVoted = false ∧
    s.verifiers.length < MAX_VERIFIERS ∧
    s' = { s with votes := setVote s.votes sender { getVote s.votes sender with stake := msgValue }, verifiers := s.verifiers ++ [sender] } := by
  unfold stakeForVerification at h
  split_ifs at h with h1 h2 h3 h4 h5 <;>
    first
      | exact Except.noConfusion h
      | (injection h with hh
         exact ⟨by simpa using h2, by omega, hh.symm⟩)

theorem vote_ok_inv (sender : Nat) (approved : Bool) (now : Nat) (s s' : VSys)
    (h : submitVerification sender approved now s = .ok s') :
    (getVote s.votes sender).stake ≠ 0 ∧
    (getVote s.votes sender).hasVoted = false ∧
    s' = recordVote sender approved now s := by
  simp only [submitVerification] at h
  split_ifs at h with h1 h2 <;>
    first
      | exact Except.noConfusion h
      | (injection h with hh
         exact ⟨h1, by simpa using h2, hh.symm⟩)

theorem foldl_settleVerifier_fields (b : Bool) (l : List Nat) :
    ∀ t : VSys, ((l.foldl (settleVerifier b) t).sub = t.sub ∧
      (l.foldl (settleVerifier b) t).votes = t.votes ∧
      (l.foldl (settleVerifier b) t).verifiers = t.verifiers ∧
      (l.foldl (settleVerifier b) t).consensusReachedAt = t.consensusReachedAt ∧
      (l.foldl (settleVerifier b) t).pool = t.pool) := by
  induction l with
  | nil => intro t; simp
  | cons a rest ih =>
    intro t
    have hstep : (settleVerifier b t a).sub = t.sub ∧
        (settleVerifier b t a).votes = t.votes ∧
        (settleVerifier b t a).verifiers = t.verifiers ∧
        (settleVerifier b t a).consensusReachedAt = t.consensusReachedAt ∧
        (settleVerifier b t a).pool = t.pool := by
      simp only [settleVerifier]
      split_ifs <;> simp
    obtain ⟨f1, f2, f3, f4, f5⟩ := ih (settleVerifier b t a)
    rw [List.foldl_cons]
    exact ⟨f1.trans hstep.1, f2.trans hstep.2.1, f3.trans hstep.2.2.1,
      f4.trans hstep.2.2.2.1, f5.trans hstep.2.2.2.2⟩

theorem distributeVerifierRewards_fields (s : VSys) :
    (distributeVerifierRewards s).sub = s.sub ∧
    (distributeVerifierRewards s).votes = s.votes ∧
    (distributeVerifierRewards s).verifiers = s.verifiers := by
  obtain ⟨f1, f2, f3, -, -⟩ :=
    foldl_settleVerifier_fields (decide (s.sub.status = .verified)) s.verifiers s
  exact ⟨f1, f2, f3⟩

theorem distribute_ok_inv (now : Nat) (s s' : VSys)
    (h : distributeVerificationRewards now s = .ok s') :
    (s.sub.status = .verified ∨ s.sub.status = .rejected) ∧
    s.sub.rewardDistributed = false ∧
    REWARD_DISTRIBUTION_DELAY ≤ now - s.consensusReachedAt ∧
    s'.sub = { s.sub with rewardDistributed := true } ∧
    s'.votes = s.votes ∧ s'.verifiers = s.verifiers := by
  simp only [distributeVerificationRewards] at h
  split_ifs at h with h1 h2 h3 h4
  · rcases hp : distributeReward s.sub.taskId s.sub.worker s.sub.bountyAmount s.pool with e | pool'
    · rw [hp] at h
      exact Except.noConfusion h
    · rw [hp] at h
      injection h with hh
      subst hh
      obtain ⟨f1, f2, f3⟩ := distributeVerifierRewards_fields
        { sub := { s.sub with rewardDistributed := true }, votes := s.votes, verifiers := s.verifiers, consensusReachedAt := s.consensusReachedAt, rep := s.rep, pool := pool', vcPaid := s.vcPaid }
      exact ⟨h1, by simpa using h2, Nat.not_lt.mp h3, f1, f2, f3⟩
  · dsimp only at h
    injection h with hh
    subst hh
    obtain ⟨f1, f2, f3⟩ := distributeVerifierRewards_fields
      { sub := { s.sub with rewardDistributed := true }, votes := s.votes, verifiers := s.verifiers, consensusReachedAt := s.consensusReachedAt, rep := s.rep, pool := s.pool, vcPaid := s.vcPaid }
    exact ⟨h1, by simpa using h2, Nat.not_lt.mp h3, f1, f2, f3⟩

/-! ## Verification-engine lemmas: the invariant -/

theorem vinv_checkConsensus (now : Nat) (t : VSys)
    (h1 : t.sub.approvalCount + t.sub.rejectionCount = t.sub.totalVotes)
    (h2 : t.sub.totalVotes = t.votes.countP (fun kv => kv.2.hasVoted))
    (h3 : t.votes.length ≤ t.verifiers.length)
    (h4 : t.verifiers.length ≤ MAX_VERIFIERS) :
    VInv (checkConsensus now t) := by
  obtain ⟨c1, c2, c3, c4, c5⟩ := checkConsensus_counts now t
  refine ⟨by rw [c1, c2, c3]; exact h1, by rw [c3, c4]; exact h2,
    by rw [c4, c5]; exact h3, by rw [c5]; exact h4, ?_, ?_⟩
  · intro ha
    rw [c1] at ha
    exact checkConsensus_verified now t ha
  · intro hr ha
    rw [c2] at hr
    rw [c1] at ha
    exact checkConsensus_rejected now t ha hr

theorem vinv_applyVOp (s : VSys) (op : VOp) (h : VInv s) : VInv (applyVOp s op) := by
  cases hop : execVOp s op with
  | error e => rw [applyVOp_of_error s op e hop]; exact h
  | ok s' =>
    rw [applyVOp_of_ok s s' op hop]
    obtain ⟨i1, i2, i3, i4, i5, i6⟩ := h
    cases op with
    | stake sender msgValue now =>
      obtain ⟨hv, hlen, rfl⟩ := stake_ok_inv sender msgValue now s s' hop
      refine ⟨by simpa using i1, ?_, ?_, ?_, by simpa using i5, by simpa using i6⟩
      · show s.sub.totalVotes = List.countP _ (setVote s.votes sender _)
        rw [setVote_countP s.votes sender _ hv]
        simpa [hv] using i2
      · show (setVote s.votes sender _).length ≤ (s.verifiers ++ [sender]).length
        refine le_trans (setVote_length_le s.votes sender _) ?_
        simp only [List.length_append, List.length_cons, List.length_nil]
        omega
      · show (s.verifiers ++ [sender]).length ≤ MAX_VERIFIERS
        simp only [List.length_append, List.length_cons, List.length_nil]
        omega
    | vote sender approved now =>
      obtain ⟨hstake, hvoted, rfl⟩ := vote_ok_inv sender approved now s s' hop
      simp only [recordVote]
      apply vinv_checkConsensus
      · cases approved <;> simp <;> omega
      · dsimp only
        rw [setVote_countP s.votes sender _ hvoted]
        simp [i2]
      · show (setVote s.votes sender _).length ≤ s.verifiers.length
        rw [setVote_length_of_staked s.votes sender _ hstake]
        exact i3
      · exact i4
    | distribute now =>
      obtain ⟨g1, g2, g3, g4, g5, g6⟩ := distribute_ok_inv now s s' hop
      have e1 : s'.sub.approvalCount = s.sub.approvalCount := by rw [g4]
      have e2 : s'.sub.rejectionCount = s.sub.rejectionCount := by rw [g4]
      have e3 : s'.sub.totalVotes = s.sub.totalVotes := by rw [g4]
      have e4 : s'.sub.status = s.sub.status := by rw [g4]
      refine ⟨by rw [e1, e2, e3]; exact i1, by rw [e3, g5]; exact i2,
        by rw [g5, g6]; exact i3, by rw [g6]; exact i4, ?_, ?_⟩
      · intro ha; rw [e1] at ha; rw [e4]; exact i5 ha
      · intro hr ha; rw [e2] at hr; rw [e1] at ha; rw [e4]; exact i6 hr ha

theorem approval_mono_applyVOp (s : VSys) (op : VOp) :
    s.sub.approvalCount ≤ (applyVOp s op).sub.approvalCount := by
  cases hop : execVOp s op with
  | error e => rw [applyVOp_of_error s op e hop]
  | ok s' =>
    rw [applyVOp_of_ok s s' op hop]
    cases op with
    | stake sender msgValue now =>
      obtain ⟨-, -, rfl⟩ := stake_ok_inv sender msgValue now s s' hop
      simp
    | vote sender approved now =>
      obtain ⟨-, -, rfl⟩ := vote_ok_inv sender approved now s s' hop
      simp only [recordVote]
      obtain ⟨c1, -, -, -, -⟩ := checkConsensus_counts now _
      rw [c1]
      cases approved <;> simp
    | distribute now =>
      obtain ⟨-, -, -, g4, -, -⟩ := distribute_ok_inv now s s' hop
      have e1 : s'.sub.approvalCount = s.sub.approvalCount := by rw [g4]
      rw [e1]

theorem vinv_runVOps (ops : List VOp) : ∀ s : VSys, VInv s → VInv (runVOps s ops) := by
  induction ops with
  | nil => intro s h; exact h
  | cons a l ih =>
    intro s h
    exact ih (applyVOp s a) (vinv_applyVOp s a h)

theorem approval_mono_runVOps (ops : List VOp) :
    ∀ s : VSys, s.sub.approvalCount ≤ (runVOps s ops).sub.approvalCount := by
  induction ops with
  | nil => intro s; exact le_refl _
  | cons a l ih =>
    intro s
    exact le_trans (approval_mono_applyVOp s a) (ih (applyVOp s a))

theorem vinv_initVSys (taskId worker : Nat) (ipfsHash : String) (location : Location)
    (bountyAmount now0 : Nat) (pool : PoolState) (rep : Nat → ReputationData) :
    VInv (initVSys taskId worker ipfsHash location bountyAmount now0 pool rep) := by
  refine ⟨rfl, rfl, ?_, ?_, ?_, ?_⟩ <;> simp [initVSys, VERIFICATION_STAKE, MAX_VERIFIERS,
    CONSENSUS_THRESHOLD]

/-- C2 (counterexample): seven reviewers stake on a pending submission;
the first three vote reject, reaching the rejection threshold — status
becomes Rejected (terminal per the claim).  The remaining staked reviewers
may still vote (`submitVerification` has no status guard), and when three
of them vote approve, `_checkConsensus` — which tests the approval branch
first — flips the status to Verified.  A later operation thus changed a
status that had reached the 3-rejection threshold, refuting terminality. -/
theorem c2_counterexample :
    ((runVOps c2Init (c2StakeOps ++ c2RejectOps)).sub.rejectionCount = 3 ∧
     (runVOps c2Init (c2StakeOps ++ c2RejectOps)).sub.status
        = VerificationStatus.rejected) ∧
    (runVOps c2Init (c2StakeOps ++ c2RejectOps ++ c2ApproveOps)).sub.status
        = VerificationStatus.verified := by
  refine ⟨⟨?_, ?_⟩, ?_⟩ <;> decide

/-- C2 (amended): for every submission and every sequence of staking,
voting and distribution operations, `approvalCount + rejectionCount` never
exceeds 7; once `approvalCount` reaches 3 the status is Verified and no
later operation ever changes it; but once `rejectionCount` reaches 3 (with
approvals still below 3) the status is Rejected only for as long as
approvals stay below 3 — staked reviewers who have not yet voted can still
push the approval count to 3, flipping the status to Verified. -/
theorem c2_consensus_invariant (taskId worker : Nat) (ipfsHash : String)
    (location : Location) (bountyAmount now0 : Nat) (pool : PoolState)
    (rep : Nat → ReputationData) (ops : List VOp) :
    (submissionRun taskId worker ipfsHash location bountyAmount now0 pool rep ops).sub.approvalCount
        + (submissionRun taskId worker ipfsHash location bountyAmount now0 pool rep ops).sub.rejectionCount
        ≤ MAX_VERIFIERS ∧
    (CONSENSUS_THRESHOLD ≤ (submissionRun taskId worker ipfsHash location bountyAmount now0 pool rep ops).sub.approvalCount →
      ∀ more : List VOp,
        (runVOps (submissionRun taskId worker ipfsHash location bountyAmount now0 pool rep ops) more).sub.status = .verified) ∧
    (CONSENSUS_THRESHOLD ≤ (submissionRun taskId worker ipfsHash location bountyAmount now0 pool rep ops).sub.rejectionCount →
      (submissionRun taskId worker ipfsHash location bountyAmount now0 pool rep ops).sub.approvalCount < CONSENSUS_THRESHOLD →
      (submissionRun taskId worker ipfsHash location bountyAmount now0 pool rep ops).sub.status = .rejected) := by
  have hInv : VInv (submissionRun taskId worker ipfsHash location bountyAmount now0 pool rep ops) :=
    vinv_runVOps ops _ (vinv_initVSys taskId worker ipfsHash location bountyAmount now0 pool rep)
  obtain ⟨i1, i2, i3, i4, i5, i6⟩ := hInv
  refine ⟨?_, ?_, i6⟩
  · have hc := List.countP_le_length
      (l := (submissionRun taskId worker ipfsHash location bountyAmount now0 pool rep ops).votes)
      (p := fun kv => kv.2.hasVoted)
    omega
  · intro ha more
    have hInv2 : VInv (runVOps (submissionRun taskId worker ipfsHash location bountyAmount now0 pool rep ops) more) :=
      vinv_runVOps more _ ⟨i1, i2, i3, i4, i5, i6⟩
    have hm := approval_mono_runVOps more
      (submissionRun taskId worker ipfsHash location bountyAmount now0 pool rep ops)
    exact hInv2.2.2.2.2.1 (le_trans ha hm)

/-- Witness for C2's amended theorem on a concrete run reaching three
approvals, extended by one further (reverting) operation. -/
theorem c2_consensus_invariant_witness :
    CONSENSUS_THRESHOLD ≤ (submissionRun 0 2 "img" zeroLocation 1000000000000000000 0
        freshPool (fun _ => zeroReputationData) (c2StakeOps ++ c2ApproveOps)).sub.approvalCount ∧
    (runVOps (submissionRun 0 2 "img" zeroLocation 1000000000000000000 0
        freshPool (fun _ => zeroReputationData) (c2StakeOps ++ c2ApproveOps))
        [VOp.vote 17 false 4]).sub.status = .verified :=
  ⟨by decide,
    (c2_consensus_invariant 0 2 "img" zeroLocation 1000000000000000000 0 freshPool
      (fun _ => zeroReputationData) (c2StakeOps ++ c2ApproveOps)).2.1 (by decide)
      [VOp.vote 17 false 4]⟩

/-- C3: `distributeVerificationRewards` succeeds only when the submission's
status is Verified or Rejected, rewards have not been distributed yet, and
at least `REWARD_DISTRIBUTION_DELAY` (5 minutes) has elapsed since the
recorded consensus timestamp.  After a successful call the distributed flag
is set, and every repeated call — at any time — fails with the
already-distributed error and, by revert semantics, changes nothing: the
payout and stake-settlement effects are applied exactly once. -/
theorem c3_distribute_once (s : VSys) (now : Nat)
    (h : (distributeVerificationRewards now s).isOk = true) :
    (s.sub.status = .verified ∨ s.sub.status = .rejected) ∧
    s.sub.rewardDistributed = false ∧
    REWARD_DISTRIBUTION_DELAY ≤ now - s.consensusReachedAt ∧
    (applyVOp s (VOp.distribute now)).sub.rewardDistributed = true ∧
    (∀ now2 : Nat,
      distributeVerificationRewards now2 (applyVOp s (VOp.distribute now))
          = .error .rewardAlreadyDistributed ∧
      applyVOp (applyVOp s (VOp.distribute now)) (VOp.distribute now2)
          = applyVOp s (VOp.distribute now)) := by
  obtain ⟨s', hs'⟩ : ∃ s', distributeVerificationRewards now s = .ok s' := by
    cases hd : distributeVerificationRewards now s with
    | ok t => exact ⟨t, rfl⟩
    | error e => rw [hd] at h; simp [Except.isOk, Except.toBool] at h
  obtain ⟨g1, g2, g3, g4, g5, g6⟩ := distribute_ok_inv now s s' hs'
  have happly : applyVOp s (VOp.distribute now) = s' :=
    applyVOp_of_ok s s' (VOp.distribute now) hs'
  rw [happly]
  have hflag : s'.sub.rewardDistributed = true := by rw [g4]
  have hstat : s'.sub.status = s.sub.status := by rw [g4]
  refine ⟨g1, g2, g3, hflag, ?_⟩
  intro now2
  have herr : distributeVerificationRewards now2 s' = .error .rewardAlreadyDistributed := by
    unfold distributeVerificationRewards
    rw [if_neg (not_not_intro (by rw [hstat]; exact g1)), if_pos (by rw [hflag])]
  exact ⟨herr, applyVOp_of_error s' (VOp.distribute now2) _ herr⟩

/-- Witness for C3 on the concrete Verified submission (consensus at time
10, distribution at time 310 — exactly the 5-minute delay). -/
theorem c3_distribute_once_witness :
    (distributeVerificationRewards 310 c3Ready).isOk = true ∧
    ((c3Ready.sub.status = .verified ∨ c3Ready.sub.status = .rejected) ∧
     c3Ready.sub.rewardDistributed = false ∧
     REWARD_DISTRIBUTION_DELAY ≤ 310 - c3Ready.consensusReachedAt ∧
     (applyVOp c3Ready (VOp.distribute 310)).sub.rewardDistributed = true ∧
     (∀ now2 : Nat,
       distributeVerificationRewards now2 (applyVOp c3Ready (VOp.distribute 310))
           = .error .rewardAlreadyDistributed ∧
       applyVOp (applyVOp c3Ready (VOp.distribute 310)) (VOp.distribute now2)
           = applyVOp c3Ready (VOp.distribute 310))) :=
  ⟨by decide, c3_distribute_once c3Ready 310 (by decide)⟩

end MicroTask
